import Mathlib

/-!
Shallow embedding of the hybrid grid/DCA trading bot core
(`src/main.py`, `src/src/strategies/hybrid_strategy_engine.py`,
`src/src/core/portfolio.py`, `src/src/indicators/indicator_engine.py`).

Modelling conventions:
* Python floats are modelled as `ℚ` (exact arithmetic; the claims under
  study are about control flow and exact algebra, not rounding).
* `datetime` values are modelled as a record of a second count (`sec`,
  what `.total_seconds()` of a difference returns) together with the
  calendar-date string that `strftime('%Y-%m-%d')` would produce.
* Python `dict`s keyed by strings are modelled as association lists in
  insertion order with unique keys (first-match lookup).
* Fallible operations return `Option`/`Bool × _` exactly where the code
  returns `None`/`False`.
* Log statements are no-ops and are dropped, except where a computed log
  argument can raise (noted in place, it changes the result).
-/

/-- Floor of a rational, computed directly so that it reduces in the kernel. -/
def qfloor (q : ℚ) : ℤ := q.num.fdiv q.den

/-- Round to the nearest integer, ties to even — the rounding used by
Python's fixed-point string formatting (`format(x, '.2f')` etc.). -/
def roundHalfEven (q : ℚ) : ℤ :=
  let f : ℤ := qfloor q
  let r : ℚ := q - f
  if r < 1/2 then f
  else if r > 1/2 then f + 1
  else if f % 2 = 0 then f else f + 1

/-- Render a natural number as `d`-fixed-point decimal text: `intpart.fracpart`
with the fraction zero-padded to `d` digits; no decimal point when `d = 0`. -/
def fixedOfNat (d : ℕ) (n : ℕ) : String :=
  let ip := n / 10 ^ d
  let fp := n % 10 ^ d
  if d = 0 then toString ip
  else
    let fs := toString fp
    let pad := String.mk (List.replicate (d - fs.length) '0')
    toString ip ++ "." ++ pad ++ fs

/-- Python `format(x, '.{d}f')` on an exact rational value: round half to even
at `d` decimals and render with a sign (Python keeps the sign on negative
values that round to zero, which this branch structure reproduces since
round-half-even is symmetric). -/
def formatFixed (d : ℕ) (q : ℚ) : String :=
  if q < 0 then "-" ++ fixedOfNat d (roundHalfEven (-q * 10 ^ d)).toNat
  else fixedOfNat d (roundHalfEven (q * 10 ^ d)).toNat

/-- Python `str()` of a float holding an exact short decimal value (the shape
of every configuration constant in this repository, e.g. `-5.0` ↦ `"-5.0"`,
`2.5` ↦ `"2.5"`): shortest decimal expansion, at least one fractional digit. -/
def pyStrFloat (q : ℚ) : String :=
  let k := (((List.range 21).find? fun k => (q * 10 ^ k).den == 1)).getD 20
  formatFixed (max 1 k) q

/-- Python rendering of an `Optional[str]` inside an f-string. -/
def pyStrOptStr : Option String → String
  | some s => s
  | none => "None"

/-- First-match lookup in an insertion-ordered string-keyed dict. -/
def dictGet {α : Type} : List (String × α) → String → Option α
  | [], _ => none
  | (k, v) :: rest, key => if k = key then some v else dictGet rest key

/-- Remove the (first) binding of a key, Python `del d[key]`. -/
def dictErase {α : Type} : List (String × α) → String → List (String × α)
  | [], _ => []
  | (k, v) :: rest, key => if k = key then rest else (k, v) :: dictErase rest key

/-- Update the (first) binding of a key in place, Python mutating `d[key]`. -/
def dictModify {α : Type} : List (String × α) → String → (α → α) → List (String × α)
  | [], _, _ => []
  | (k, v) :: rest, key, f =>
    if k = key then (k, f v) :: rest else (k, v) :: dictModify rest key f

inductive PositionSide
  | LONG
  | SHORT
deriving DecidableEq, Repr

/-- `Position` (src/src/core/portfolio.py).  `entry_time`, `stop_loss` and
`take_profit` are never read by the code under study and are omitted. -/
structure Position where
  symbol : String
  side : PositionSide
  quantity : ℚ
  entry_price : ℚ
  strategy : String
  unrealized_pnl : ℚ
deriving DecidableEq, Repr

/-- `Position.update_pnl`. -/
def Position.update_pnl (p : Position) (current_price : ℚ) : Position :=
  if p.side = PositionSide.LONG then
    { p with unrealized_pnl := (current_price - p.entry_price) * p.quantity }
  else
    { p with unrealized_pnl := (p.entry_price - current_price) * p.quantity }

/-- The trade record appended by `Portfolio.close_position` (timestamp
dropped: it is wall-clock time, never read back). -/
structure TradeRecord where
  symbol : String
  strategy : String
  side : PositionSide
  entry_price : ℚ
  exit_price : ℚ
  quantity : ℚ
  pnl : ℚ
  pnl_pct : ℚ
deriving DecidableEq, Repr

/-- `Portfolio` (src/src/core/portfolio.py).  `positions` is keyed by
`f"{symbol}_{strategy}"` exactly as in the source.  The daily/weekly reset
dates are wall-clock state not touched by the claims and are omitted. -/
structure Portfolio where
  initial_capital : ℚ
  cash : ℚ
  positions : List (String × Position)
  total_trades : ℕ
  winning_trades : ℕ
  losing_trades : ℕ
  total_pnl : ℚ
  daily_pnl : ℚ
  weekly_pnl : ℚ
  trade_history : List TradeRecord
deriving DecidableEq, Repr

/-- `Portfolio.get_total_value`.  Note the source iterates
`self.positions.items()` and tests the loop variable — which holds the
positions-map *key* `f"{symbol}_{strategy}"`, not the bare symbol —
for membership in `current_prices`. -/
def Portfolio.get_total_value (pf : Portfolio) (current_prices : List (String × ℚ)) : ℚ :=
  let position_value := pf.positions.foldl
    (fun acc kv =>
      match dictGet current_prices kv.1 with
      | some price =>
        let p := kv.2.update_pnl price
        acc + (p.entry_price * p.quantity + p.unrealized_pnl)
      | none => acc) 0
  pf.cash + position_value

/-- `Portfolio.get_equity`. -/
def Portfolio.get_equity (pf : Portfolio) (current_prices : List (String × ℚ)) : ℚ :=
  pf.get_total_value current_prices

/-- `Portfolio.open_position`: returns the boolean result together with the
updated portfolio (`self` after the call). -/
def Portfolio.open_position (pf : Portfolio) (symbol : String) (side : PositionSide)
    (quantity entry_price : ℚ) (strategy : String) : Bool × Portfolio :=
  let position_cost := entry_price * quantity
  if position_cost > pf.cash then (false, pf)
  else
    let position_key := symbol ++ "_" ++ strategy
    if (dictGet pf.positions position_key).isSome then (false, pf)
    else
      (true,
        { pf with
          positions := pf.positions ++
            [(position_key, ⟨symbol, side, quantity, entry_price, strategy, 0⟩)],
          cash := pf.cash - position_cost })

/-- `Portfolio.close_position`.  `quantity if quantity else position.quantity`
treats an explicit `0` like `None` (Python falsiness).  The recorded
`pnl_pct` divides by `entry_price * close_qty`; `ℚ` division by zero is `0`
(the source would raise `ZeroDivisionError` there, reachable only for a
zero-quantity position). -/
def Portfolio.close_position (pf : Portfolio) (symbol strategy : String)
    (exit_price : ℚ) (quantity : Option ℚ) : Option ℚ × Portfolio :=
  let position_key := symbol ++ "_" ++ strategy
  match dictGet pf.positions position_key with
  | none => (none, pf)
  | some position =>
    let close_qty0 :=
      match quantity with
      | some q => if q = 0 then position.quantity else q
      | none => position.quantity
    let close_qty := if close_qty0 > position.quantity then position.quantity else close_qty0
    let pnl :=
      if position.side = PositionSide.LONG then (exit_price - position.entry_price) * close_qty
      else (position.entry_price - exit_price) * close_qty
    let positions' :=
      if close_qty ≥ position.quantity then dictErase pf.positions position_key
      else dictModify pf.positions position_key
        (fun p => { p with quantity := p.quantity - close_qty })
    let record : TradeRecord :=
      ⟨symbol, strategy, position.side, position.entry_price, exit_price, close_qty,
        pnl, pnl / (position.entry_price * close_qty) * 100⟩
    (some pnl,
      { pf with
        cash := pf.cash + exit_price * close_qty,
        positions := positions',
        total_trades := pf.total_trades + 1,
        total_pnl := pf.total_pnl + pnl,
        daily_pnl := pf.daily_pnl + pnl,
        weekly_pnl := pf.weekly_pnl + pnl,
        winning_trades := if pnl > 0 then pf.winning_trades + 1 else pf.winning_trades,
        losing_trades := if pnl > 0 then pf.losing_trades else pf.losing_trades + 1,
        trade_history := pf.trade_history ++ [record] })

/-- The `BUY` branch of `HybridTradingBot._fill_order` (src/main.py): it calls
`open_position(..., strategy='Hybrid')` and ignores the returned boolean.
(The DCA-fill notification and CSV logging do not touch the portfolio.) -/
def fill_order_buy (pf : Portfolio) (symbol : String) (qty fill_price : ℚ) : Portfolio :=
  (pf.open_position symbol PositionSide.LONG qty fill_price "Hybrid").2

/-- The equity formula as the specification states it (§3/§8), for comparison
with `Portfolio.get_total_value`: cash plus, per position, `q·price(symbol)`
for LONG and `q·(2·entry − price(symbol))` for SHORT, reading prices by the
position's *symbol*. -/
def spec_equity (pf : Portfolio) (prices : List (String × ℚ)) : ℚ :=
  pf.cash + pf.positions.foldl
    (fun acc kv =>
      let p := kv.2
      let price := (dictGet prices p.symbol).getD 0
      acc + (if p.side = PositionSide.LONG then p.quantity * price
             else p.quantity * (2 * p.entry_price - price))) 0

inductive Side
  | BUY
  | SELL
deriving DecidableEq, Repr

inductive GateState
  | RUN
  | DEGRADED
  | PAUSED
deriving DecidableEq, Repr

inductive Band
  | near
  | mid
  | far
deriving DecidableEq, Repr

/-- A `datetime` value: the second count used by `.total_seconds()` of a
difference, together with the `strftime('%Y-%m-%d')` calendar date. -/
structure Timestamp where
  sec : ℚ
  date : String
deriving DecidableEq, Repr

/-- An OHLCV bar.  `on_bar` reads only `bar['timestamp']` and `bar['close']`;
the other OHLCV fields are never consulted and are omitted. -/
structure Bar where
  ts : Timestamp
  close : ℚ
deriving DecidableEq, Repr

/-- The signal bundle built by `IndicatorEngine._extract_latest_signals`.
All fields the engine reads are present here; `_get_technical_signals`'s
required-field validation therefore always passes on a `some` bundle, and
the missing-bundle / missing-field failure is the `none` case of
`Option Signals`. -/
structure Signals where
  close : ℚ
  rsi : ℚ
  atr : ℚ
  atr_pct : ℚ
  ema_fast : ℚ
  ema_mid : ℚ
  ema_slow : ℚ
deriving DecidableEq, Repr

/-- An order emitted in a plan (`{side, price, tag}`; `qty` is never set by
the hybrid engine). -/
structure Order where
  side : Side
  price : ℚ
  tag : String
deriving DecidableEq, Repr

structure SlAction where
  stop : Bool
  reason : Option String
deriving DecidableEq, Repr

/-- The plan dict produced by `HybridStrategyEngine.on_bar`. -/
structure Plan where
  pnl_gate_state : GateState
  sl_action : SlAction
  grid_orders : List Order
  dca_orders : List Order
  tp_orders : List Order
  band : Band
  spread_pct : ℚ
  ref_price : ℚ
  kill_replace : Bool
deriving DecidableEq, Repr

/-- The policy configuration loaded by `HybridStrategyEngine._load_config`
(defaults in parentheses in the source).  `bar_seconds` is the already-parsed
`_parse_timeframe_to_seconds(bar_timeframe)` value.  The formatted hard-stop
reasons render the threshold with Python `str()` of its float value. -/
structure PolicyCfg where
  use_dynamic_spread : Bool
  fixed_spread_pct : ℚ
  band_near_threshold : ℚ
  band_mid_threshold : ℚ
  spread_near_pct : ℚ
  spread_mid_pct : ℚ
  spread_far_pct : ℚ
  rsi_adjust_enabled : Bool
  rsi_adjust_factor : ℚ
  grid_enabled : Bool
  grid_levels_per_side : ℕ
  grid_kill_replace_threshold_pct : ℚ
  grid_min_seconds_between : ℚ
  dca_enabled : Bool
  dca_rsi_threshold : ℚ
  dca_use_ema_gate : Bool
  dca_cooldown_bars : ℚ
  dca_min_distance_from_last_fill_pct : ℚ
  dca_price_offset_pct : ℚ
  tp_enabled : Bool
  tp_rsi_threshold : ℚ
  tp_spread_near_pct : ℚ
  tp_spread_mid_pct : ℚ
  tp_spread_far_pct : ℚ
  gate_degraded_gap_pct : ℚ
  gate_paused_gap_pct : ℚ
  gate_degraded_daily_pnl_pct : ℚ
  gate_paused_daily_pnl_pct : ℚ
  hard_stop_daily_pnl_pct : ℚ
  hard_stop_gap_pct : ℚ
  bar_seconds : ℚ
  auto_resume_enabled : Bool
  resume_rsi_threshold : ℚ
  resume_price_recovery_pct : ℚ
  resume_cooldown_bars : ℚ

/-- The mutable per-symbol state of `HybridStrategyEngine`. -/
structure EngineState where
  last_grid_ref_price : Option ℚ
  last_grid_timestamp : Option Timestamp
  last_dca_timestamp : Option Timestamp
  last_dca_fill_price : Option ℚ
  open_price_day : Option ℚ
  equity_open : Option ℚ
  last_date : Option String
  hard_stop_active : Bool
  hard_stop_timestamp : Option Timestamp
  hard_stop_price : Option ℚ
  hard_stop_reason : Option String
deriving DecidableEq, Repr

/-- The fresh state set up in `HybridStrategyEngine.__init__` / `_load_config`. -/
def EngineState.fresh : EngineState :=
  ⟨none, none, none, none, none, none, none, false, none, none, none⟩

/-- `HybridStrategyEngine._compute_band_and_spread`. -/
def compute_band_and_spread (cfg : PolicyCfg) (s : Signals) : Band × ℚ :=
  if !cfg.use_dynamic_spread then (Band.mid, cfg.fixed_spread_pct)
  else
    let bb : Band × ℚ :=
      if s.atr_pct < cfg.band_near_threshold then (Band.near, cfg.spread_near_pct)
      else if s.atr_pct < cfg.band_mid_threshold then (Band.mid, cfg.spread_mid_pct)
      else (Band.far, cfg.spread_far_pct)
    let spread_pct :=
      if cfg.rsi_adjust_enabled then
        let rsi_factor :=
          if s.rsi < 30 then 1 - cfg.rsi_adjust_factor
          else if s.rsi > 70 then 1 + cfg.rsi_adjust_factor
          else 1
        bb.2 * rsi_factor
      else bb.2
    (bb.1, max (1/10) (min 2 spread_pct))

/-- The kill-replace test at the top of `_plan_grid`. -/
def grid_kill_replace (cfg : PolicyCfg) (st : EngineState) (ref_price : ℚ) : Bool :=
  match st.last_grid_ref_price with
  | some lp => decide (|ref_price - lp| / lp * 100 > cfg.grid_kill_replace_threshold_pct)
  | none => false

/-- The grid-level generation loop of `_plan_grid`:
`for i in range(1, grid_levels_per_side + 1)` appends a buy then a sell. -/
def grid_levels (ref_price spread_pct : ℚ) (n : ℕ) : List Order :=
  (List.range n).flatMap fun j =>
    [⟨Side.BUY, ref_price * (1 - spread_pct / 100 * (j + 1)), "grid_buy_" ++ toString (j + 1)⟩,
     ⟨Side.SELL, ref_price * (1 + spread_pct / 100 * (j + 1)), "grid_sell_" ++ toString (j + 1)⟩]

/-- `HybridStrategyEngine._plan_grid`, returning
`(grid_orders, kill_replace, self after the call)`. -/
def plan_grid (cfg : PolicyCfg) (st : EngineState) (ref_price spread_pct : ℚ)
    (timestamp : Timestamp) : List Order × Bool × EngineState :=
  let kill_replace := grid_kill_replace cfg st ref_price
  let cooldown_blocked :=
    match st.last_grid_timestamp with
    | some t => !kill_replace && decide (timestamp.sec - t.sec < cfg.grid_min_seconds_between)
    | none => false
  if cooldown_blocked then ([], false, st)
  else
    let grid_orders := grid_levels ref_price spread_pct cfg.grid_levels_per_side
    let st' :=
      if !grid_orders.isEmpty || kill_replace then
        { st with last_grid_ref_price := some ref_price, last_grid_timestamp := some timestamp }
      else st
    (grid_orders, kill_replace, st')

/-- `HybridStrategyEngine._plan_dca`, returning `(dca_orders, self after)`. -/
def plan_dca (cfg : PolicyCfg) (st : EngineState) (ref_price : ℚ) (s : Signals)
    (timestamp : Timestamp) : List Order × EngineState :=
  if s.rsi ≥ cfg.dca_rsi_threshold then ([], st)
  else if cfg.dca_use_ema_gate && decide (ref_price ≥ s.ema_fast) then ([], st)
  else if st.last_dca_timestamp.any
      (fun t => decide ((timestamp.sec - t.sec) / cfg.bar_seconds < cfg.dca_cooldown_bars)) then
    ([], st)
  else if st.last_dca_fill_price.any
      (fun fp => decide (|ref_price - fp| / fp * 100 < cfg.dca_min_distance_from_last_fill_pct)) then
    ([], st)
  else
    let dca_price := ref_price * (1 - cfg.dca_price_offset_pct / 100)
    ([⟨Side.BUY, dca_price, "dca_rsi" ++ formatFixed 0 s.rsi⟩],
      { st with last_dca_timestamp := some timestamp })

/-- `HybridStrategyEngine._plan_tp`. -/
def plan_tp (cfg : PolicyCfg) (ref_price : ℚ) (s : Signals) (band : Band) : List Order :=
  if s.rsi < cfg.tp_rsi_threshold then []
  else if ref_price < s.ema_fast then []
  else
    let tp_spread :=
      match band with
      | Band.near => cfg.tp_spread_near_pct
      | Band.mid => cfg.tp_spread_mid_pct
      | Band.far => cfg.tp_spread_far_pct
    let tp_price := ref_price * (1 + tp_spread / 100)
    [⟨Side.SELL, tp_price,
      "tp_rsi" ++ formatFixed 0 s.rsi ++ "_band" ++
        (match band with | Band.near => "near" | Band.mid => "mid" | Band.far => "far")⟩]

/-- `HybridStrategyEngine.notify_dca_fill`. -/
def notify_dca_fill (st : EngineState) (fill_price : ℚ) : EngineState :=
  { st with last_dca_fill_price := some fill_price }

/-- `HybridStrategyEngine._activate_hard_stop`. -/
def activate_hard_stop (st : EngineState) (timestamp : Timestamp) (price : ℚ)
    (reason : String) : EngineState :=
  { st with
    hard_stop_active := true,
    hard_stop_timestamp := some timestamp,
    hard_stop_price := some price,
    hard_stop_reason := some reason }

/-- `HybridStrategyEngine._can_resume`.  Two seldom-noted source behaviours
are reproduced: (a) when the indicator engine has no signals the function
returns `False`; (b) when `_hard_stop_price` is `None` or non-positive the
price-recovery check is skipped, leaving `price_change_pct` unbound, so the
final `logger.info` f-string raises `NameError`, which the surrounding
`except` swallows by returning `False`. -/
def can_resume (cfg : PolicyCfg) (st : EngineState) (signals : Option Signals)
    (timestamp : Timestamp) (current_price : ℚ) : Bool :=
  if !st.hard_stop_active then false
  else
    match st.hard_stop_timestamp with
    | none => false
    | some t0 =>
      match signals with
      | none => false
      | some s =>
        let bars_since_stop := (timestamp.sec - t0.sec) / cfg.bar_seconds
        if bars_since_stop < cfg.resume_cooldown_bars then false
        else if s.rsi ≤ cfg.resume_rsi_threshold then false
        else
          match st.hard_stop_price with
          | some p0 =>
            if p0 > 0 then
              if (current_price - p0) / p0 * 100 < cfg.resume_price_recovery_pct then false
              else true
            else false
          | none => false

/-- The day-rollover block at the top of `_evaluate_gate_and_sl`. -/
def rollover_day (st : EngineState) (bar : Bar) (equity ref_price : ℚ) : EngineState :=
  if st.last_date ≠ some bar.ts.date then
    { st with
      open_price_day := some ref_price,
      equity_open := some equity,
      last_date := some bar.ts.date }
  else st

/-- `gap_pct` as computed in `_evaluate_gate_and_sl` (0 when undefined). -/
def gap_pct_of (st : EngineState) (ref_price : ℚ) : ℚ :=
  match st.open_price_day with
  | some o => if o > 0 then (ref_price - o) / o * 100 else 0
  | none => 0

/-- `daily_pnl_pct` as computed in `_evaluate_gate_and_sl` (0 when undefined). -/
def daily_pnl_pct_of (st : EngineState) (equity : ℚ) : ℚ :=
  match st.equity_open with
  | some e => if e > 0 then (equity - e) / e * 100 else 0
  | none => 0

/-- `HybridStrategyEngine._evaluate_gate_and_sl`, returning
`(self after the call, gate_state, sl_action)`. -/
def evaluate_gate_and_sl (cfg : PolicyCfg) (st : EngineState) (bar : Bar)
    (equity ref_price : ℚ) (signals : Option Signals) :
    EngineState × GateState × SlAction :=
  let st1 := rollover_day st bar equity ref_price
  let gap_pct := gap_pct_of st1 ref_price
  let daily_pnl_pct := daily_pnl_pct_of st1 equity
  -- the continuation after the hard-stop-active block
  let after_latch : EngineState → EngineState × GateState × SlAction := fun st2 =>
    if daily_pnl_pct ≤ cfg.hard_stop_daily_pnl_pct then
      let reason := "Daily PnL " ++ formatFixed 2 daily_pnl_pct ++ "% <= " ++
        pyStrFloat cfg.hard_stop_daily_pnl_pct ++ "%"
      (activate_hard_stop st2 bar.ts ref_price reason, GateState.PAUSED, ⟨true, some reason⟩)
    else if gap_pct ≤ cfg.hard_stop_gap_pct then
      let reason := "Gap " ++ formatFixed 2 gap_pct ++ "% <= " ++
        pyStrFloat cfg.hard_stop_gap_pct ++ "%"
      (activate_hard_stop st2 bar.ts ref_price reason, GateState.PAUSED, ⟨true, some reason⟩)
    else
      let gate_state :=
        if daily_pnl_pct ≤ cfg.gate_paused_daily_pnl_pct ∨ gap_pct ≤ cfg.gate_paused_gap_pct then
          GateState.PAUSED
        else if daily_pnl_pct ≤ cfg.gate_degraded_daily_pnl_pct ∨
            gap_pct ≤ cfg.gate_degraded_gap_pct then
          GateState.DEGRADED
        else GateState.RUN
      (st2, gate_state, ⟨false, none⟩)
  if st1.hard_stop_active then
    if cfg.auto_resume_enabled && can_resume cfg st1 signals bar.ts ref_price then
      after_latch
        { st1 with
          hard_stop_active := false,
          hard_stop_timestamp := none,
          hard_stop_price := none,
          hard_stop_reason := none }
    else
      (st1, GateState.PAUSED,
        ⟨true, some ("Hard stop active: " ++ pyStrOptStr st1.hard_stop_reason)⟩)
  else after_latch st1

/-- The plan initialised at the top of `on_bar` (returned unchanged when the
indicator engine has no usable signal bundle). -/
def init_plan (cfg : PolicyCfg) (bar : Bar) : Plan :=
  { pnl_gate_state := GateState.RUN,
    sl_action := ⟨false, none⟩,
    grid_orders := [],
    dca_orders := [],
    tp_orders := [],
    band := Band.mid,
    spread_pct := cfg.fixed_spread_pct,
    ref_price := bar.close,
    kill_replace := false }

/-- `HybridStrategyEngine.on_bar`, returning `(plan, self after the call)`.
`signals` is the value of `self.indicator_engine.latest()` for this tick
(it is read twice in the source — in `_get_technical_signals` and inside
`_can_resume` — both reads see the same bundle). -/
def on_bar (cfg : PolicyCfg) (st : EngineState) (bar : Bar) (equity : ℚ)
    (signals : Option Signals) : Plan × EngineState :=
  match signals with
  | none => (init_plan cfg bar, st)
  | some s =>
    let ref_price := bar.close
    let bs := compute_band_and_spread cfg s
    let egs := evaluate_gate_and_sl cfg st bar equity ref_price signals
    let st1 := egs.1
    let gate_state := egs.2.1
    let sl_action := egs.2.2
    let base := { init_plan cfg bar with
      band := bs.1
      spread_pct := bs.2
      ref_price := ref_price
      pnl_gate_state := gate_state
      sl_action := sl_action }
    if sl_action.stop then (base, st1)
    else
      match gate_state with
      | GateState.RUN =>
        let g := if cfg.grid_enabled then plan_grid cfg st1 ref_price bs.2 bar.ts
                 else ([], false, st1)
        let d := if cfg.dca_enabled then plan_dca cfg g.2.2 ref_price s bar.ts
                 else ([], g.2.2)
        let tp := if cfg.tp_enabled then plan_tp cfg ref_price s bs.1 else []
        ({ base with
            grid_orders := g.1,
            kill_replace := g.2.1,
            dca_orders := d.1,
            tp_orders := tp }, d.2)
      | GateState.DEGRADED =>
        let d := if cfg.dca_enabled then plan_dca cfg st1 ref_price s bar.ts
                 else ([], st1)
        let tp := if cfg.tp_enabled then plan_tp cfg ref_price s bs.1 else []
        ({ base with dca_orders := d.1, tp_orders := tp }, d.2)
      | GateState.PAUSED => (base, st1)

/-- A pending order tracked by `HybridTradingBot` (src/main.py). -/
structure PendingOrder where
  symbol : String
  side : Side
  price : ℚ
  qty : ℚ
  tag : String
  order_type : String
  order_id : String
  timestamp : Timestamp
  initial_rsi : Option ℚ
deriving DecidableEq, Repr

/-- The order-management knobs read from the policy config in
`_manage_pending_orders` (defaults 300, 2.0, True, 1.5, True, 20). -/
structure OrderMgmtCfg where
  order_max_age_seconds : ℚ
  order_price_drift_threshold_pct : ℚ
  order_cancel_on_volatility_spike : Bool
  order_volatility_spike_threshold : ℚ
  order_cancel_on_rsi_reversal : Bool
  order_rsi_reversal_threshold : ℚ

/-- Which cancellation criterion fired for a pending order.  The source
stores a human-readable reason string built from the same data and only
ever tests it for truthiness (every such string is non-empty), so an
`Option CancelReason` carries exactly the information the sweep uses. -/
inductive CancelReason
  | age
  | price_drift
  | volatility_spike
  | rsi_reversal
deriving DecidableEq, Repr

/-- ASCII lower-casing of one character (Python `str.lower` restricted to the
ASCII order tags this code produces). -/
def charLower (c : Char) : Char :=
  if 'A' ≤ c ∧ c ≤ 'Z' then Char.ofNat (c.toNat + 32) else c

/-- Python `s.lower()` (ASCII). -/
def strLower (s : String) : String := String.mk (s.data.map charLower)

/-- Does `sub` occur as a contiguous sublist of `s`? -/
def subOccurs (sub : List Char) : List Char → Bool
  | [] => sub.isEmpty
  | c :: t => sub.isPrefixOf (c :: t) || subOccurs sub t

/-- Substring test, Python `sub in s` (for non-empty `sub`). -/
def strContains (s sub : String) : Bool :=
  subOccurs sub.data s.data

/-- The per-order body of the cancel-stale sweep in
`HybridTradingBot._manage_pending_orders`, translated branch for branch
(`if` / `elif` / `elif` / `elif`).  Returns the cancellation decision and
the order as left behind (`initial_rsi` may be recorded in branch 4).
`last_atr_pct` is `self._last_atr_pct.get(symbol, current_atr_pct)` when the
`_last_atr_pct` attribute exists, `none` on the first ever sweep.
Note the structure of the source: branch 2 is guarded by `order_price > 0`
alone — the drift comparison happens inside it — so for any order with a
positive price branches 3 and 4 are never reached. -/
def cancel_decision (cfg : OrderMgmtCfg) (now : ℚ) (current_price current_rsi current_atr_pct : ℚ)
    (last_atr_pct : Option ℚ) (order : PendingOrder) : Option CancelReason × PendingOrder :=
  let order_age := now - order.timestamp.sec
  if order_age > cfg.order_max_age_seconds then (some CancelReason.age, order)
  else if order.price > 0 then
    let price_drift_pct := |current_price - order.price| / order.price * 100
    if price_drift_pct > cfg.order_price_drift_threshold_pct then
      (some CancelReason.price_drift, order)
    else (none, order)
  else if cfg.order_cancel_on_volatility_spike && strContains (strLower order.tag) "grid" then
    match last_atr_pct with
    | some last =>
      if current_atr_pct > last * cfg.order_volatility_spike_threshold then
        (some CancelReason.volatility_spike, order)
      else (none, order)
    | none => (none, order)
  else if cfg.order_cancel_on_rsi_reversal then
    match order.initial_rsi with
    | none => (none, { order with initial_rsi := some current_rsi })
    | some initial =>
      let rsi_change := |current_rsi - initial|
      if order.side = Side.BUY ∧ initial < 40 ∧ current_rsi > 60 then
        if rsi_change > cfg.order_rsi_reversal_threshold then
          (some CancelReason.rsi_reversal, order)
        else (none, order)
      else if order.side = Side.SELL ∧ initial > 60 ∧ current_rsi < 40 then
        if rsi_change > cfg.order_rsi_reversal_threshold then
          (some CancelReason.rsi_reversal, order)
        else (none, order)
      else (none, order)
  else (none, order)

/-!  ## Theorems

The `Rat` arithmetic operations are `@[irreducible]` in the ambient library;
they are made semireducible locally so that concrete runs of the embedded
code evaluate inside `decide`/`rfl` proofs.
-/

section
attribute [local semireducible] Rat.add Rat.mul Rat.sub Rat.inv Rat.ofScientific

/-- The default policy produced by `_load_config` when a key is absent
(`bar_seconds` is `_parse_timeframe_to_seconds('1m') = 60`). -/
def default_policy : PolicyCfg :=
  { use_dynamic_spread := true, fixed_spread_pct := 0.5,
    band_near_threshold := 1.0, band_mid_threshold := 2.0,
    spread_near_pct := 0.3, spread_mid_pct := 0.5, spread_far_pct := 0.8,
    rsi_adjust_enabled := true, rsi_adjust_factor := 0.1,
    grid_enabled := true, grid_levels_per_side := 3,
    grid_kill_replace_threshold_pct := 1.0, grid_min_seconds_between := 300,
    dca_enabled := true, dca_rsi_threshold := 35, dca_use_ema_gate := true,
    dca_cooldown_bars := 5, dca_min_distance_from_last_fill_pct := 1.0,
    dca_price_offset_pct := 0.1,
    tp_enabled := true, tp_rsi_threshold := 65,
    tp_spread_near_pct := 0.5, tp_spread_mid_pct := 0.8, tp_spread_far_pct := 1.2,
    gate_degraded_gap_pct := -3.0, gate_paused_gap_pct := -5.0,
    gate_degraded_daily_pnl_pct := -2.0, gate_paused_daily_pnl_pct := -4.0,
    hard_stop_daily_pnl_pct := -5.0, hard_stop_gap_pct := -8.0,
    bar_seconds := 60,
    auto_resume_enabled := true, resume_rsi_threshold := 40,
    resume_price_recovery_pct := 2.0, resume_cooldown_bars := 60 }

/-- An empty portfolio with the given cash (as after `Portfolio.__init__`). -/
def emptyPortfolio (capital : ℚ) : Portfolio :=
  { initial_capital := capital, cash := capital, positions := [],
    total_trades := 0, winning_trades := 0, losing_trades := 0,
    total_pnl := 0, daily_pnl := 0, weekly_pnl := 0, trade_history := [] }

/-- C10: when the indicator engine has no usable signal bundle, `on_bar`
returns the freshly initialised plan — gate `RUN`, `stop = false`, empty
order lists, band `mid`, spread `fixed_spread_pct`, `ref_price = bar.close`,
`kill_replace = false` — and leaves the engine state (including any active
hard stop) completely untouched. -/
theorem on_bar_no_signals_default_plan (cfg : PolicyCfg) (st : EngineState)
    (bar : Bar) (equity : ℚ) :
    on_bar cfg st bar equity none =
      ({ pnl_gate_state := GateState.RUN, sl_action := ⟨false, none⟩,
         grid_orders := [], dca_orders := [], tp_orders := [],
         band := Band.mid, spread_pct := cfg.fixed_spread_pct,
         ref_price := bar.close, kill_replace := false }, st) :=
  rfl

/-- The portfolio used to exercise the `get_total_value` key/symbol mixup:
1000 cash and one LONG position of 1 unit of BTCUSDT entered at 100. -/
def pfValue : Portfolio :=
  { emptyPortfolio 1000 with
    positions := [("BTCUSDT_Hybrid", ⟨"BTCUSDT", PositionSide.LONG, 1, 100, "Hybrid", 0⟩)] }

/-- C7: refuted on the code.  `get_total_value` looks the positions-map key
`"BTCUSDT_Hybrid"` up in a price dict keyed by the symbol `"BTCUSDT"`, finds
nothing, and values the position at 0: with 1000 cash and a LONG position of
1 unit entered at 100, at price 110 the code returns 1000 while the
specification's formula gives 1110. -/
theorem get_total_value_drops_positions :
    pfValue.get_total_value [("BTCUSDT", 110)] = 1000 ∧
    spec_equity pfValue [("BTCUSDT", 110)] = 1110 ∧
    pfValue.get_total_value [("BTCUSDT", 110)] ≠ spec_equity pfValue [("BTCUSDT", 110)] := by
  decide

/-- C8: `open_position` returns `False` exactly when the cost
`entry_price·qty` exceeds the cash or a position already exists under the
`f"{symbol}_{strategy}"` key; on failure the portfolio is unchanged, and on
success the position is appended under that key and cash is debited by
exactly `entry_price·qty`. -/
theorem open_position_spec (pf : Portfolio) (symbol : String) (side : PositionSide)
    (quantity entry_price : ℚ) (strategy : String) :
    ((pf.open_position symbol side quantity entry_price strategy).1 = false ↔
      entry_price * quantity > pf.cash ∨
        (dictGet pf.positions (symbol ++ "_" ++ strategy)).isSome = true) ∧
    ((pf.open_position symbol side quantity entry_price strategy).1 = false →
      (pf.open_position symbol side quantity entry_price strategy).2 = pf) ∧
    ((pf.open_position symbol side quantity entry_price strategy).1 = true →
      (pf.open_position symbol side quantity entry_price strategy).2.cash =
          pf.cash - entry_price * quantity ∧
        (pf.open_position symbol side quantity entry_price strategy).2.positions =
          pf.positions ++
            [(symbol ++ "_" ++ strategy,
              ⟨symbol, side, quantity, entry_price, strategy, 0⟩)]) := by
  simp only [Portfolio.open_position]
  split_ifs with h1 h2 <;> simp_all

/-- Witness for `open_position_spec` at a concrete input. -/
theorem open_position_spec_witness :
    (((emptyPortfolio 1000).open_position "BTCUSDT" PositionSide.LONG 2 100 "Hybrid").1 = false ↔
      (100 : ℚ) * 2 > (emptyPortfolio 1000).cash ∨
        (dictGet (emptyPortfolio 1000).positions ("BTCUSDT" ++ "_" ++ "Hybrid")).isSome = true) ∧
    (((emptyPortfolio 1000).open_position "BTCUSDT" PositionSide.LONG 2 100 "Hybrid").1 = false →
      ((emptyPortfolio 1000).open_position "BTCUSDT" PositionSide.LONG 2 100 "Hybrid").2 =
        emptyPortfolio 1000) ∧
    (((emptyPortfolio 1000).open_position "BTCUSDT" PositionSide.LONG 2 100 "Hybrid").1 = true →
      ((emptyPortfolio 1000).open_position "BTCUSDT" PositionSide.LONG 2 100 "Hybrid").2.cash =
          (emptyPortfolio 1000).cash - 100 * 2 ∧
        ((emptyPortfolio 1000).open_position "BTCUSDT" PositionSide.LONG 2 100 "Hybrid").2.positions =
          (emptyPortfolio 1000).positions ++
            [("BTCUSDT" ++ "_" ++ "Hybrid",
              ⟨"BTCUSDT", PositionSide.LONG, 2, 100, "Hybrid", 0⟩)]) :=
  open_position_spec (emptyPortfolio 1000) "BTCUSDT" PositionSide.LONG 2 100 "Hybrid"

/-- A portfolio that already holds a LONG position of 1 unit of BTCUSDT at
entry 100 under `(BTCUSDT, Hybrid)`, with ample cash. -/
def pfHolding : Portfolio :=
  { emptyPortfolio 1000 with
    positions := [("BTCUSDT_Hybrid", ⟨"BTCUSDT", PositionSide.LONG, 1, 100, "Hybrid", 0⟩)] }

/-- C3 counterexample: a second paper-mode BUY fill (1 unit at 110) on an
existing LONG position (1 unit at 100) leaves the portfolio completely
unchanged — `open_position` returns `False` for the existing key and the
fill handler ignores the result — instead of averaging up to quantity 2 at
entry price (1·100 + 1·110)/2 = 105 as the claim requires. -/
theorem fill_order_buy_no_average_up :
    fill_order_buy pfHolding "BTCUSDT" 1 110 = pfHolding ∧
    (dictGet (fill_order_buy pfHolding "BTCUSDT" 1 110).positions "BTCUSDT_Hybrid").map
        (fun p => (p.quantity, p.entry_price)) = some (1, 100) ∧
    (dictGet (fill_order_buy pfHolding "BTCUSDT" 1 110).positions "BTCUSDT_Hybrid").map
        (fun p => (p.quantity, p.entry_price)) ≠ some (2, 105) := by
  decide

/-- C3 (amended): a paper-mode BUY fill on `(symbol, "Hybrid")` opens a LONG
position with the fill's quantity and price when no position exists for the
key and the fill cost does not exceed cash (debiting the cost); in every
other case — position already present, or insufficient cash — the fill
leaves the portfolio unchanged, and in particular an existing LONG position
is never averaged up. -/
theorem fill_order_buy_spec (pf : Portfolio) (symbol : String) (qty fill_price : ℚ) :
    fill_order_buy pf symbol qty fill_price =
      if fill_price * qty ≤ pf.cash ∧ dictGet pf.positions (symbol ++ "_" ++ "Hybrid") = none then
        { pf with
          positions := pf.positions ++
            [(symbol ++ "_" ++ "Hybrid", ⟨symbol, PositionSide.LONG, qty, fill_price, "Hybrid", 0⟩)],
          cash := pf.cash - fill_price * qty }
      else pf := by
  by_cases hc : fill_price * qty ≤ pf.cash ∧
      dictGet pf.positions (symbol ++ "_" ++ "Hybrid") = none
  · rw [if_pos hc]
    simp only [fill_order_buy, Portfolio.open_position]
    rw [if_neg (not_lt.mpr hc.1), hc.2]
    rfl
  · rw [if_neg hc]
    simp only [fill_order_buy, Portfolio.open_position]
    by_cases h1 : fill_price * qty > pf.cash
    · rw [if_pos h1]
    · have h2 : (dictGet pf.positions (symbol ++ "_" ++ "Hybrid")).isSome = true :=
        Option.isSome_iff_ne_none.mpr fun hn => hc ⟨not_lt.mp h1, hn⟩
      rw [if_neg h1, if_pos h2]

/-- The cancel-stale policy knobs at their `_manage_pending_orders` defaults:
max age 300 s, drift 2 %, volatility-spike cancellation on at 1.5×,
RSI-reversal cancellation on at threshold 20. -/
def omDefault : OrderMgmtCfg := ⟨300, 2, true, 3/2, true, 20⟩

/-- A ten-second-old pending grid BUY order at price 100 with no recorded
`initial_rsi`. -/
def pendingGridBuy : PendingOrder :=
  ⟨"BTCUSDT", Side.BUY, 100, 1, "grid_buy_1", "GRID", "PAPER_1", ⟨0, "2024-01-01"⟩, none⟩

/-- C2: refuted on the code.  For a pending grid BUY order whose age (10 s)
and price drift (0.5 %) are both below their thresholds, while the
volatility-spike criterion matches (current ATR% 2 > previous 1 × 1.5), the
sweep cancels nothing and records no `initial_rsi`: the `elif order_price > 0`
guard consumes every order with a positive price after the drift check, so
criteria 3 and 4 of the sweep's own docstring are never evaluated. -/
theorem cancel_sweep_dead_criteria :
    (cancel_decision omDefault 10 100.5 30 2 (some 1) pendingGridBuy).1 = none ∧
    (cancel_decision omDefault 10 100.5 30 2 (some 1) pendingGridBuy).2.initial_rsi = none ∧
    10 - pendingGridBuy.timestamp.sec ≤ omDefault.order_max_age_seconds ∧
    |(100.5 : ℚ) - pendingGridBuy.price| / pendingGridBuy.price * 100 ≤
      omDefault.order_price_drift_threshold_pct ∧
    omDefault.order_cancel_on_volatility_spike = true ∧
    strContains (strLower pendingGridBuy.tag) "grid" = true ∧
    (2 : ℚ) > 1 * omDefault.order_volatility_spike_threshold := by
  decide

/-- Looking up a key just appended to a dict that did not contain it. -/
theorem dictGet_append_single {α : Type} (l : List (String × α)) (k : String) (v : α)
    (h : dictGet l k = none) : dictGet (l ++ [(k, v)]) k = some v := by
  induction l with
  | nil => simp [dictGet]
  | cons hd tl ih =>
    rw [List.cons_append]
    by_cases hk : hd.1 = k
    · exfalso
      rw [show hd = (hd.1, hd.2) from rfl, dictGet, if_pos hk] at h
      exact Option.noConfusion h
    · rw [show hd = (hd.1, hd.2) from rfl, dictGet, if_neg hk] at h ⊢
      exact ih h

/-- C9: opening a LONG position (price `p > 0`, quantity `q > 0`, cost within
cash, key free) and then fully closing it at the same price `p` — the
portfolio charges no fee — realises a PnL of exactly 0 and restores cash to
exactly its value before the open. -/
theorem open_close_round_trip (pf : Portfolio) (symbol strategy : String) (p q : ℚ)
    (hp : 0 < p) (hq : 0 < q) (hcash : p * q ≤ pf.cash)
    (hkey : dictGet pf.positions (symbol ++ "_" ++ strategy) = none) :
    ((pf.open_position symbol PositionSide.LONG q p strategy).2.close_position
        symbol strategy p none).1 = some 0 ∧
    ((pf.open_position symbol PositionSide.LONG q p strategy).2.close_position
        symbol strategy p none).2.cash = pf.cash := by
  have hopen : pf.open_position symbol PositionSide.LONG q p strategy =
      (true,
        { pf with
          positions := pf.positions ++
            [(symbol ++ "_" ++ strategy, ⟨symbol, PositionSide.LONG, q, p, strategy, 0⟩)],
          cash := pf.cash - p * q }) := by
    rw [Portfolio.open_position]
    simp only
    rw [if_neg (by exact not_lt.mpr hcash), hkey]
    rfl
  rw [hopen]
  simp only [Portfolio.close_position]
  rw [dictGet_append_single _ _ _ hkey]
  refine ⟨?_, ?_⟩
  · simp [sub_self]
  · simp [ite_self]

/-- Witness for `open_close_round_trip`: open 5 units at 10 on 1000 cash,
close at 10, PnL 0 and cash restored to 1000. -/
theorem open_close_round_trip_witness :
    (((emptyPortfolio 1000).open_position "BTCUSDT" PositionSide.LONG 5 10 "Hybrid").2.close_position
        "BTCUSDT" "Hybrid" 10 none).1 = some 0 ∧
    (((emptyPortfolio 1000).open_position "BTCUSDT" PositionSide.LONG 5 10 "Hybrid").2.close_position
        "BTCUSDT" "Hybrid" 10 none).2.cash = (emptyPortfolio 1000).cash :=
  open_close_round_trip (emptyPortfolio 1000) "BTCUSDT" "Hybrid" 10 5
    (by decide) (by decide) (by decide) rfl

/-- Day rollover does not touch the hard-stop latch. -/
theorem rollover_day_hard_stop_active (st : EngineState) (bar : Bar) (equity ref_price : ℚ) :
    (rollover_day st bar equity ref_price).hard_stop_active = st.hard_stop_active := by
  rw [rollover_day]; split <;> rfl

/-- Day rollover does not touch the hard-stop timestamp. -/
theorem rollover_day_hard_stop_timestamp (st : EngineState) (bar : Bar) (equity ref_price : ℚ) :
    (rollover_day st bar equity ref_price).hard_stop_timestamp = st.hard_stop_timestamp := by
  rw [rollover_day]; split <;> rfl

/-- Day rollover does not touch the hard-stop price. -/
theorem rollover_day_hard_stop_price (st : EngineState) (bar : Bar) (equity ref_price : ℚ) :
    (rollover_day st bar equity ref_price).hard_stop_price = st.hard_stop_price := by
  rw [rollover_day]; split <;> rfl

/-- Day rollover does not touch the grid fields. -/
theorem rollover_day_grid_fields (st : EngineState) (bar : Bar) (equity ref_price : ℚ) :
    (rollover_day st bar equity ref_price).last_grid_ref_price = st.last_grid_ref_price ∧
    (rollover_day st bar equity ref_price).last_grid_timestamp = st.last_grid_timestamp := by
  rw [rollover_day]; split <;> exact ⟨rfl, rfl⟩

/-- Day rollover does not touch the DCA fields. -/
theorem rollover_day_dca_fields (st : EngineState) (bar : Bar) (equity ref_price : ℚ) :
    (rollover_day st bar equity ref_price).last_dca_timestamp = st.last_dca_timestamp ∧
    (rollover_day st bar equity ref_price).last_dca_fill_price = st.last_dca_fill_price := by
  rw [rollover_day]; split <;> exact ⟨rfl, rfl⟩

/-- The state used for the S4 gate scenarios: day anchors already taken on
the bar's date with `open_price_day = 100` and `equity_open_day = 10000`. -/
def stDay : EngineState :=
  { EngineState.fresh with
    open_price_day := some 100, equity_open := some 10000, last_date := some "2024-01-02" }

/-- A bar on the anchored date at close 100 (gap 0). -/
def barDay : Bar := ⟨⟨86400, "2024-01-02"⟩, 100⟩

/-- C5: with no hard stop active and neither hard-stop threshold crossed, the
gate is `PAUSED` iff `daily_pnl_pct ≤ gate_paused_daily_pnl_pct` or
`gap_pct ≤ gate_paused_gap_pct`, else `DEGRADED` iff the degraded thresholds
are crossed, else `RUN` (with `stop = false`); and under the default policy
with `equity_open_day = 10000`, equity 9800 yields `DEGRADED`, 9600 yields
`PAUSED`, and 9500 latches a hard stop whose reason is exactly
`"Daily PnL -5.00% <= -5.0%"`. -/
theorem gate_classification (cfg : PolicyCfg) (st : EngineState) (bar : Bar)
    (equity ref_price : ℚ) (signals : Option Signals)
    (h0 : st.hard_stop_active = false)
    (h1 : ¬ daily_pnl_pct_of (rollover_day st bar equity ref_price) equity ≤
      cfg.hard_stop_daily_pnl_pct)
    (h2 : ¬ gap_pct_of (rollover_day st bar equity ref_price) ref_price ≤
      cfg.hard_stop_gap_pct) :
    ((evaluate_gate_and_sl cfg st bar equity ref_price signals).2.1 =
      (if daily_pnl_pct_of (rollover_day st bar equity ref_price) equity ≤
            cfg.gate_paused_daily_pnl_pct ∨
          gap_pct_of (rollover_day st bar equity ref_price) ref_price ≤
            cfg.gate_paused_gap_pct then
        GateState.PAUSED
      else if daily_pnl_pct_of (rollover_day st bar equity ref_price) equity ≤
            cfg.gate_degraded_daily_pnl_pct ∨
          gap_pct_of (rollover_day st bar equity ref_price) ref_price ≤
            cfg.gate_degraded_gap_pct then
        GateState.DEGRADED
      else GateState.RUN) ∧
     (evaluate_gate_and_sl cfg st bar equity ref_price signals).2.2.stop = false) ∧
    (evaluate_gate_and_sl default_policy stDay barDay 9800 100 none).2.1 =
      GateState.DEGRADED ∧
    (evaluate_gate_and_sl default_policy stDay barDay 9600 100 none).2.1 =
      GateState.PAUSED ∧
    ((evaluate_gate_and_sl default_policy stDay barDay 9500 100 none).2.2 =
      ⟨true, some "Daily PnL -5.00% <= -5.0%"⟩ ∧
     (evaluate_gate_and_sl default_policy stDay barDay 9500 100 none).2.1 =
      GateState.PAUSED ∧
     (evaluate_gate_and_sl default_policy stDay barDay 9500 100 none).1.hard_stop_active =
      true) := by
  refine ⟨?_, by decide, by decide, by decide⟩
  simp only [evaluate_gate_and_sl]
  rw [rollover_day_hard_stop_active, h0]
  simp only [Bool.false_eq_true, if_false]
  rw [if_neg h1, if_neg h2]
  exact ⟨rfl, rfl⟩

/-- Witness for `gate_classification`: equity 9900 on the S4 state is a bar
with no hard stop and thresholds uncrossed; the supervisor reports
`stop = false`. -/
theorem gate_classification_witness :
    (evaluate_gate_and_sl default_policy stDay barDay 9900 100 none).2.2.stop = false :=
  (gate_classification default_policy stDay barDay 9900 100 none rfl
    (by decide) (by decide)).1.2

/-- The three auto-resume conditions of `_can_resume` for a latch taken at
time `t0` and price `p0`: cooldown bars elapsed, RSI strictly above the
resume threshold, and price recovery of at least
`resume_price_recovery_pct` percent from the stop price. -/
def resume_conds (cfg : PolicyCfg) (t0 : Timestamp) (p0 : ℚ) (s : Signals)
    (ts : Timestamp) (ref_price : ℚ) : Prop :=
  cfg.resume_cooldown_bars ≤ (ts.sec - t0.sec) / cfg.bar_seconds ∧
  cfg.resume_rsi_threshold < s.rsi ∧
  cfg.resume_price_recovery_pct ≤ (ref_price - p0) / p0 * 100

instance (cfg : PolicyCfg) (t0 : Timestamp) (p0 : ℚ) (s : Signals)
    (ts : Timestamp) (ref_price : ℚ) :
    Decidable (resume_conds cfg t0 p0 s ts ref_price) :=
  inferInstanceAs (Decidable (_ ∧ _ ∧ _))

/-- On a properly latched state (positive stop price recorded) and with
signals available, `_can_resume` answers `True` exactly when the three
resume conditions hold. -/
theorem can_resume_iff (cfg : PolicyCfg) (st : EngineState) (s : Signals)
    (ts : Timestamp) (ref_price : ℚ) (t0 : Timestamp) (p0 : ℚ)
    (hactive : st.hard_stop_active = true)
    (ht : st.hard_stop_timestamp = some t0)
    (hp : st.hard_stop_price = some p0)
    (hp0 : 0 < p0) :
    (can_resume cfg st (some s) ts ref_price = true ↔ resume_conds cfg t0 p0 s ts ref_price) := by
  rw [can_resume, hactive, ht, hp]
  simp only [Bool.not_true, Bool.false_eq_true, if_false]
  rw [resume_conds]
  split_ifs with hb hr h3 <;>
    simp only [Bool.false_eq_true, false_iff, true_iff] <;>
    first
      | exact ⟨not_lt.mp hb, not_le.mp hr, not_lt.mp h3⟩
      | exact absurd hp0 h3
      | (rintro ⟨c1, c2, c3⟩
         first
           | exact absurd c1 (not_le.mpr hb)
           | exact absurd c2 (not_lt.mpr hr)
           | exact absurd c3 (not_le.mpr h3))

/-- C1: while the hard stop is latched (with its timestamp and a positive
stop price recorded) and the engine has signals, any bar on which the three
auto-resume conditions do not all hold yields a plan with gate `PAUSED`,
`sl_action.stop = true` and empty grid/DCA/TP order lists, and leaves the
latch and its fields untouched; conversely the latch is cleared only on a
bar where all three conditions hold simultaneously. -/
theorem hard_stop_latch (cfg : PolicyCfg) (st : EngineState) (bar : Bar) (equity : ℚ)
    (s : Signals) (t0 : Timestamp) (p0 : ℚ)
    (hactive : st.hard_stop_active = true)
    (ht : st.hard_stop_timestamp = some t0)
    (hp : st.hard_stop_price = some p0)
    (hp0 : 0 < p0) :
    (¬ resume_conds cfg t0 p0 s bar.ts bar.close →
      (on_bar cfg st bar equity (some s)).1.pnl_gate_state = GateState.PAUSED ∧
      (on_bar cfg st bar equity (some s)).1.sl_action.stop = true ∧
      (on_bar cfg st bar equity (some s)).1.grid_orders = [] ∧
      (on_bar cfg st bar equity (some s)).1.dca_orders = [] ∧
      (on_bar cfg st bar equity (some s)).1.tp_orders = [] ∧
      (on_bar cfg st bar equity (some s)).2.hard_stop_active = true ∧
      (on_bar cfg st bar equity (some s)).2.hard_stop_timestamp = some t0 ∧
      (on_bar cfg st bar equity (some s)).2.hard_stop_price = some p0) ∧
    ((on_bar cfg st bar equity (some s)).2.hard_stop_active = false →
      resume_conds cfg t0 p0 s bar.ts bar.close) := by
  have hr1 : (rollover_day st bar equity bar.close).hard_stop_active = true := by
    rw [rollover_day_hard_stop_active, hactive]
  have hr2 : (rollover_day st bar equity bar.close).hard_stop_timestamp = some t0 := by
    rw [rollover_day_hard_stop_timestamp, ht]
  have hr3 : (rollover_day st bar equity bar.close).hard_stop_price = some p0 := by
    rw [rollover_day_hard_stop_price, hp]
  have hcr := can_resume_iff cfg (rollover_day st bar equity bar.close) s bar.ts bar.close
    t0 p0 hr1 hr2 hr3 hp0
  have main : ¬ resume_conds cfg t0 p0 s bar.ts bar.close →
      (on_bar cfg st bar equity (some s)).1.pnl_gate_state = GateState.PAUSED ∧
      (on_bar cfg st bar equity (some s)).1.sl_action.stop = true ∧
      (on_bar cfg st bar equity (some s)).1.grid_orders = [] ∧
      (on_bar cfg st bar equity (some s)).1.dca_orders = [] ∧
      (on_bar cfg st bar equity (some s)).1.tp_orders = [] ∧
      (on_bar cfg st bar equity (some s)).2.hard_stop_active = true ∧
      (on_bar cfg st bar equity (some s)).2.hard_stop_timestamp = some t0 ∧
      (on_bar cfg st bar equity (some s)).2.hard_stop_price = some p0 := by
    intro hnc
    have hfalse : can_resume cfg (rollover_day st bar equity bar.close) (some s)
        bar.ts bar.close = false := by
      rcases Bool.eq_false_or_eq_true
          (can_resume cfg (rollover_day st bar equity bar.close) (some s)
            bar.ts bar.close) with h | h
      · exact absurd (hcr.mp h) hnc
      · exact h
    simp only [on_bar, evaluate_gate_and_sl]
    rw [hr1, hfalse]
    simp only [Bool.and_false, Bool.false_eq_true, if_false, if_true]
    refine ⟨?_, ?_, ?_, ?_, ?_, ?_, ?_, ?_⟩ <;>
      first | rfl | exact hr1 | exact hr2 | exact hr3 | trivial
  refine ⟨main, fun hfin => ?_⟩
  by_contra hnc
  exact absurd hfin (by simp [(main hnc).2.2.2.2.2.1])

/-- A state latched at time 0 and price 100, with day anchors taken. -/
def stLatched : EngineState :=
  { EngineState.fresh with
    open_price_day := some 100, equity_open := some 10000, last_date := some "2024-01-01",
    hard_stop_active := true, hard_stop_timestamp := some ⟨0, "2024-01-01"⟩,
    hard_stop_price := some 100, hard_stop_reason := some "Daily PnL -5.00% <= -5.0%" }

/-- One bar after the latch at a recovered price. -/
def barLatched : Bar := ⟨⟨60, "2024-01-01"⟩, 103⟩

/-- Signals one bar after the latch: RSI 45, price recovered to 103. -/
def sLatched : Signals := ⟨103, 45, 1.5, 1.5, 100, 100, 100⟩

/-- Witness for `hard_stop_latch`: one bar after the latch the cooldown
(60 bars) has not elapsed, so the plan stays `PAUSED` with `stop = true` and
no grid orders. -/
theorem hard_stop_latch_witness :
    (on_bar default_policy stLatched barLatched 10000 (some sLatched)).1.pnl_gate_state =
      GateState.PAUSED ∧
    (on_bar default_policy stLatched barLatched 10000 (some sLatched)).1.sl_action.stop = true ∧
    (on_bar default_policy stLatched barLatched 10000 (some sLatched)).1.grid_orders = [] ∧
    (on_bar default_policy stLatched barLatched 10000 (some sLatched)).2.hard_stop_active = true :=
  have h := hard_stop_latch default_policy stLatched barLatched 10000 sLatched
    ⟨0, "2024-01-01"⟩ 100 rfl rfl rfl (by decide)
  have hm := h.1 (by decide)
  ⟨hm.1, hm.2.1, hm.2.2.1, hm.2.2.2.2.2.1⟩

/-- The engine-state result of the gate/stop-loss supervisor never touches
the grid bookkeeping fields. -/
theorem evaluate_gate_and_sl_grid_fields (cfg : PolicyCfg) (st : EngineState) (bar : Bar)
    (equity ref_price : ℚ) (signals : Option Signals) :
    (evaluate_gate_and_sl cfg st bar equity ref_price signals).1.last_grid_ref_price =
      st.last_grid_ref_price ∧
    (evaluate_gate_and_sl cfg st bar equity ref_price signals).1.last_grid_timestamp =
      st.last_grid_timestamp := by
  rw [evaluate_gate_and_sl]
  have hg := rollover_day_grid_fields st bar equity ref_price
  split_ifs <;>
    simp only [activate_hard_stop] <;>
    exact ⟨hg.1, hg.2⟩

/-- The engine-state result of the gate/stop-loss supervisor never touches
the DCA bookkeeping fields. -/
theorem evaluate_gate_and_sl_dca_fields (cfg : PolicyCfg) (st : EngineState) (bar : Bar)
    (equity ref_price : ℚ) (signals : Option Signals) :
    (evaluate_gate_and_sl cfg st bar equity ref_price signals).1.last_dca_timestamp =
      st.last_dca_timestamp ∧
    (evaluate_gate_and_sl cfg st bar equity ref_price signals).1.last_dca_fill_price =
      st.last_dca_fill_price := by
  rw [evaluate_gate_and_sl]
  have hg := rollover_day_dca_fields st bar equity ref_price
  split_ifs <;>
    simp only [activate_hard_stop] <;>
    exact ⟨hg.1, hg.2⟩

/-- When neither the cooldown nor anything else suppresses emission —
no previous grid timestamp, or a kill-replace, or the minimum spacing
elapsed — `_plan_grid` emits exactly the symmetric ladder. -/
theorem plan_grid_fst_of_not_blocked (cfg : PolicyCfg) (st : EngineState)
    (ref_price spread_pct : ℚ) (ts : Timestamp)
    (h : st.last_grid_timestamp = none ∨ grid_kill_replace cfg st ref_price = true ∨
      (∀ t, st.last_grid_timestamp = some t →
        cfg.grid_min_seconds_between ≤ ts.sec - t.sec)) :
    (plan_grid cfg st ref_price spread_pct ts).1 =
      grid_levels ref_price spread_pct cfg.grid_levels_per_side := by
  cases hlt : st.last_grid_timestamp with
  | none => simp [plan_grid, hlt]
  | some t =>
    rcases h with h | h | h
    · rw [h] at hlt
      exact Option.noConfusion hlt
    · simp [plan_grid, hlt, h]
    · simp [plan_grid, hlt, decide_eq_false (not_lt.mpr (h t hlt))]

/-- The S1 policy: default knobs with two grid levels per side
(`spread_mid_pct = 0.5` as in the default). -/
def policyS1 : PolicyCfg := { default_policy with grid_levels_per_side := 2 }

/-- The S1 bar: close 100 on a fresh day. -/
def barS1 : Bar := ⟨⟨0, "2024-01-01"⟩, 100⟩

/-- The S1 signals: mid band (ATR% 1.5), neutral RSI 50. -/
def sS1 : Signals := ⟨100, 50, 1.5, 1.5, 100, 100, 100⟩

/-- C4: in `RUN` with the grid enabled and emission not suppressed by the
cooldown, the plan's grid orders are exactly the symmetric ladder — for
each `i = 1..grid_levels_per_side` a BUY at `ref·(1 − s·i/100)` tagged
`grid_buy_i` and a SELL at `ref·(1 + s·i/100)` tagged `grid_sell_i`, at the
plan's dynamic spread `s` and `ref = bar.close`; with spread 0.5, two
levels and close 100 the ladder is exactly {BUY@99.5, BUY@99, SELL@100.5,
SELL@101} with the matching tags. -/
theorem grid_emission (cfg : PolicyCfg) (st : EngineState) (bar : Bar) (equity : ℚ)
    (s : Signals) (st1 : EngineState) (r : Option String)
    (hgrid : cfg.grid_enabled = true)
    (heval : evaluate_gate_and_sl cfg st bar equity bar.close (some s) =
      (st1, GateState.RUN, ⟨false, r⟩))
    (hnosupp : st.last_grid_timestamp = none ∨ grid_kill_replace cfg st bar.close = true ∨
      (∀ t, st.last_grid_timestamp = some t →
        cfg.grid_min_seconds_between ≤ bar.ts.sec - t.sec)) :
    ((on_bar cfg st bar equity (some s)).1.grid_orders =
      grid_levels bar.close (compute_band_and_spread cfg s).2 cfg.grid_levels_per_side ∧
     (on_bar cfg st bar equity (some s)).1.spread_pct = (compute_band_and_spread cfg s).2 ∧
     (on_bar cfg st bar equity (some s)).1.ref_price = bar.close) ∧
    List.Perm (on_bar policyS1 EngineState.fresh barS1 10000 (some sS1)).1.grid_orders
      [⟨Side.BUY, 99.5, "grid_buy_1"⟩, ⟨Side.BUY, 99, "grid_buy_2"⟩,
       ⟨Side.SELL, 100.5, "grid_sell_1"⟩, ⟨Side.SELL, 101, "grid_sell_2"⟩] := by
  constructor
  · have hst1 : st1.last_grid_timestamp = st.last_grid_timestamp ∧
        st1.last_grid_ref_price = st.last_grid_ref_price := by
      have h := evaluate_gate_and_sl_grid_fields cfg st bar equity bar.close (some s)
      rw [heval] at h
      exact ⟨h.2, h.1⟩
    have hkill : grid_kill_replace cfg st1 bar.close = grid_kill_replace cfg st bar.close := by
      rw [grid_kill_replace, grid_kill_replace, hst1.2]
    have hnosupp1 : st1.last_grid_timestamp = none ∨
        grid_kill_replace cfg st1 bar.close = true ∨
        (∀ t, st1.last_grid_timestamp = some t →
          cfg.grid_min_seconds_between ≤ bar.ts.sec - t.sec) := by
      rw [hst1.1, hkill]
      exact hnosupp
    have hplan := plan_grid_fst_of_not_blocked cfg st1 bar.close
      (compute_band_and_spread cfg s).2 bar.ts hnosupp1
    simp only [on_bar, heval, hgrid, if_true]
    exact ⟨hplan, rfl, rfl⟩
  · have hcode : (on_bar policyS1 EngineState.fresh barS1 10000 (some sS1)).1.grid_orders =
        [⟨Side.BUY, 99.5, "grid_buy_1"⟩, ⟨Side.SELL, 100.5, "grid_sell_1"⟩,
         ⟨Side.BUY, 99, "grid_buy_2"⟩, ⟨Side.SELL, 101, "grid_sell_2"⟩] := by decide
    rw [hcode]
    exact List.Perm.cons _ (List.Perm.swap _ _ _)

/-- Witness for `grid_emission`: the S1 scenario itself discharges the
hypotheses (fresh state, `RUN`, grid enabled, no previous grid). -/
theorem grid_emission_witness :
    (on_bar policyS1 EngineState.fresh barS1 10000 (some sS1)).1.grid_orders =
      grid_levels barS1.close (compute_band_and_spread policyS1 sS1).2
        policyS1.grid_levels_per_side :=
  (grid_emission policyS1 EngineState.fresh barS1 10000 sS1
    { EngineState.fresh with
      open_price_day := some 100, equity_open := some 10000, last_date := some "2024-01-01" }
    none rfl (by decide) (Or.inl rfl)).1.1

/-- A proposition about the content of an `Option`, `True` when absent. -/
def optionProp {α : Type} (o : Option α) (p : α → Prop) : Prop :=
  match o with
  | some a => p a
  | none => True

instance {α : Type} (o : Option α) (p : α → Prop) [∀ a, Decidable (p a)] :
    Decidable (optionProp o p) :=
  match o with
  | some a => inferInstanceAs (Decidable (p a))
  | none => inferInstanceAs (Decidable True)

/-- The four DCA firing conditions of `_plan_dca` on the pre-bar engine
state: RSI strictly below the threshold; price below the fast EMA when the
EMA gate is on; cooldown bars elapsed since the last DCA (or none yet); and
minimum distance from the last DCA fill (or none yet). -/
def dca_conds (cfg : PolicyCfg) (st : EngineState) (ref_price : ℚ) (s : Signals)
    (ts : Timestamp) : Prop :=
  s.rsi < cfg.dca_rsi_threshold ∧
  (cfg.dca_use_ema_gate = true → ref_price < s.ema_fast) ∧
  optionProp st.last_dca_timestamp
    (fun t => cfg.dca_cooldown_bars ≤ (ts.sec - t.sec) / cfg.bar_seconds) ∧
  optionProp st.last_dca_fill_price
    (fun fp => cfg.dca_min_distance_from_last_fill_pct ≤ |ref_price - fp| / fp * 100)

instance (cfg : PolicyCfg) (st : EngineState) (ref_price : ℚ) (s : Signals)
    (ts : Timestamp) : Decidable (dca_conds cfg st ref_price s ts) :=
  inferInstanceAs (Decidable (_ ∧ _ ∧ _ ∧ _))

/-- `_plan_dca` fires exactly when the four DCA conditions hold, emitting the
single offset BUY and advancing `last_dca_timestamp`; otherwise it leaves
the state alone. -/
theorem plan_dca_eq (cfg : PolicyCfg) (st : EngineState) (ref_price : ℚ) (s : Signals)
    (ts : Timestamp) :
    plan_dca cfg st ref_price s ts =
      if dca_conds cfg st ref_price s ts then
        ([⟨Side.BUY, ref_price * (1 - cfg.dca_price_offset_pct / 100),
            "dca_rsi" ++ formatFixed 0 s.rsi⟩],
          { st with last_dca_timestamp := some ts })
      else ([], st) := by
  rw [plan_dca]
  by_cases h1 : s.rsi ≥ cfg.dca_rsi_threshold
  · rw [if_pos h1, if_neg (fun hc => absurd hc.1 (not_lt.mpr h1))]
  · rw [if_neg h1]
    by_cases h2 : (cfg.dca_use_ema_gate && decide (ref_price ≥ s.ema_fast)) = true
    · rw [if_pos h2, if_neg]
      rintro ⟨-, hema, -, -⟩
      have h2' : cfg.dca_use_ema_gate = true ∧ decide (ref_price ≥ s.ema_fast) = true := by
        simpa using h2
      exact absurd (hema h2'.1) (not_lt.mpr (of_decide_eq_true h2'.2))
    · rw [if_neg h2]
      by_cases h3 : st.last_dca_timestamp.any
          (fun t => decide ((ts.sec - t.sec) / cfg.bar_seconds < cfg.dca_cooldown_bars)) = true
      · rw [if_pos h3, if_neg]
        rintro ⟨-, -, hcool, -⟩
        cases hlt : st.last_dca_timestamp with
        | none => rw [hlt] at h3; exact Bool.noConfusion h3
        | some t =>
          rw [hlt] at h3 hcool
          exact absurd (of_decide_eq_true (by simpa using h3)) (not_lt.mpr hcool)
      · rw [if_neg h3]
        by_cases h4 : st.last_dca_fill_price.any
            (fun fp => decide (|ref_price - fp| / fp * 100 <
              cfg.dca_min_distance_from_last_fill_pct)) = true
        · rw [if_pos h4, if_neg]
          rintro ⟨-, -, -, hdist⟩
          cases hlf : st.last_dca_fill_price with
          | none => rw [hlf] at h4; exact Bool.noConfusion h4
          | some fp =>
            rw [hlf] at h4 hdist
            exact absurd (of_decide_eq_true (by simpa using h4)) (not_lt.mpr hdist)
        · rw [if_neg h4, if_pos]
          refine ⟨not_le.mp h1, fun hg => ?_, ?_, ?_⟩
          · by_contra hge
            exact h2 (by simp [hg, decide_eq_true (not_lt.mp hge)])
          · cases hlt : st.last_dca_timestamp with
            | none => exact trivial
            | some t =>
              rw [hlt] at h3
              simp only [Option.any_some] at h3
              exact not_lt.mp (of_decide_eq_false (Bool.not_eq_true _ ▸ h3))
          · cases hlf : st.last_dca_fill_price with
            | none => exact trivial
            | some fp =>
              rw [hlf] at h4
              simp only [Option.any_some] at h4
              exact not_lt.mp (of_decide_eq_false (Bool.not_eq_true _ ▸ h4))

/-- `_plan_grid` never touches the DCA bookkeeping fields. -/
theorem plan_grid_dca_fields (cfg : PolicyCfg) (st : EngineState)
    (ref_price spread_pct : ℚ) (ts : Timestamp) :
    (plan_grid cfg st ref_price spread_pct ts).2.2.last_dca_timestamp =
      st.last_dca_timestamp ∧
    (plan_grid cfg st ref_price spread_pct ts).2.2.last_dca_fill_price =
      st.last_dca_fill_price := by
  simp only [plan_grid]
  split_ifs <;> exact ⟨rfl, rfl⟩

/-- `dca_conds` reads the state only through the two DCA fields. -/
theorem dca_conds_congr (cfg : PolicyCfg) {stA stB : EngineState}
    (h1 : stA.last_dca_timestamp = stB.last_dca_timestamp)
    (h2 : stA.last_dca_fill_price = stB.last_dca_fill_price)
    (ref_price : ℚ) (s : Signals) (ts : Timestamp) :
    dca_conds cfg stA ref_price s ts ↔ dca_conds cfg stB ref_price s ts := by
  rw [dca_conds, dca_conds, h1, h2]

/-- C6: in `RUN` or `DEGRADED` with DCA enabled, the plan carries a DCA order
iff the four DCA conditions hold on the pre-bar state, and in that case it is
exactly one BUY at `ref·(1 − dca_price_offset_pct/100)` tagged
`dca_rsi{rsi rounded}` and the post-bar state has
`last_dca_timestamp = bar.ts`. -/
theorem dca_emission (cfg : PolicyCfg) (st : EngineState) (bar : Bar) (equity : ℚ)
    (s : Signals) (st1 : EngineState) (g : GateState) (r : Option String)
    (heval : evaluate_gate_and_sl cfg st bar equity bar.close (some s) = (st1, g, ⟨false, r⟩))
    (hgate : g = GateState.RUN ∨ g = GateState.DEGRADED)
    (hdca : cfg.dca_enabled = true) :
    ((on_bar cfg st bar equity (some s)).1.dca_orders ≠ [] ↔
      dca_conds cfg st bar.close s bar.ts) ∧
    (dca_conds cfg st bar.close s bar.ts →
      (on_bar cfg st bar equity (some s)).1.dca_orders =
        [⟨Side.BUY, bar.close * (1 - cfg.dca_price_offset_pct / 100),
          "dca_rsi" ++ formatFixed 0 s.rsi⟩] ∧
      (on_bar cfg st bar equity (some s)).2.last_dca_timestamp = some bar.ts) := by
  have hd1 := evaluate_gate_and_sl_dca_fields cfg st bar equity bar.close (some s)
  rw [heval] at hd1
  rcases hgate with hg | hg
  · subst hg
    have hst2 : (if cfg.grid_enabled then
          plan_grid cfg st1 bar.close (compute_band_and_spread cfg s).2 bar.ts
        else ([], false, st1)).2.2.last_dca_timestamp = st.last_dca_timestamp ∧
        (if cfg.grid_enabled then
          plan_grid cfg st1 bar.close (compute_band_and_spread cfg s).2 bar.ts
        else ([], false, st1)).2.2.last_dca_fill_price = st.last_dca_fill_price := by
      by_cases hge : cfg.grid_enabled = true
      · rw [if_pos hge]
        have h := plan_grid_dca_fields cfg st1 bar.close (compute_band_and_spread cfg s).2 bar.ts
        exact ⟨h.1.trans hd1.1, h.2.trans hd1.2⟩
      · rw [if_neg hge]
        exact hd1
    simp only [on_bar, heval, hdca, if_true]
    rw [plan_dca_eq]
    by_cases hc : dca_conds cfg st bar.close s bar.ts
    · rw [if_pos ((dca_conds_congr cfg hst2.1 hst2.2 bar.close s bar.ts).mpr hc)]
      exact ⟨by simp [hc], fun _ => ⟨rfl, rfl⟩⟩
    · rw [if_neg (fun h =>
        hc ((dca_conds_congr cfg hst2.1 hst2.2 bar.close s bar.ts).mp h))]
      exact ⟨by simp [hc], fun h => absurd h hc⟩
  · subst hg
    simp only [on_bar, heval, hdca, if_true]
    rw [plan_dca_eq]
    by_cases hc : dca_conds cfg st bar.close s bar.ts
    · rw [if_pos ((dca_conds_congr cfg hd1.1 hd1.2 bar.close s bar.ts).mpr hc)]
      exact ⟨by simp [hc], fun _ => ⟨rfl, rfl⟩⟩
    · rw [if_neg (fun h =>
        hc ((dca_conds_congr cfg hd1.1 hd1.2 bar.close s bar.ts).mp h))]
      exact ⟨by simp [hc], fun h => absurd h hc⟩

/-- The S3 bar: close 99 on a fresh day. -/
def barS3 : Bar := ⟨⟨0, "2024-01-01"⟩, 99⟩

/-- The S3 signals: RSI 30 (oversold), fast EMA 100 above the close. -/
def sS3 : Signals := ⟨99, 30, 1.5, 1.5, 100, 100, 100⟩

/-- Witness for `dca_emission`: the S3 scenario fires one BUY at
`99·(1 − 0.1/100) = 98.901` tagged `dca_rsi30` and stamps the bar time. -/
theorem dca_emission_witness :
    (on_bar default_policy EngineState.fresh barS3 10000 (some sS3)).1.dca_orders =
      [⟨Side.BUY, barS3.close * (1 - default_policy.dca_price_offset_pct / 100),
        "dca_rsi" ++ formatFixed 0 sS3.rsi⟩] ∧
    (on_bar default_policy EngineState.fresh barS3 10000 (some sS3)).2.last_dca_timestamp =
      some barS3.ts :=
  (dca_emission default_policy EngineState.fresh barS3 10000 sS3
    { EngineState.fresh with
      open_price_day := some 99, equity_open := some 10000, last_date := some "2024-01-01" }
    GateState.RUN none (by decide) (Or.inl rfl) rfl).2 (by decide)

end
